import Mathlib

/-!
Shallow embedding of the order-lifecycle and token core of the kaavyar
e-commerce backend (`app/api/orders.py`, `app/models/order.py`,
`app/core/security.py`), together with theorems settling the spec claims.

Conventions of the embedding:
* MongoDB documents become Lean structures; `None` becomes `Option.none`.
* Python `int` is unbounded, so prices and money amounts are `Int`.
* Timestamps (`datetime.utcnow()`) are abstracted as `Nat` instants passed
  in as a `now` parameter.
* `generate_order_number()` is random; the generated number is passed in
  as a parameter to `create_order`.
* The database is a list of stored orders, each carrying the hex string of
  its Mongo `_id`; `find_one` by a field becomes `List.find?`.
* HTTP error responses become an `OrderError` value carrying the same
  status code and detail message as the Python `HTTPException`.
* The JWT HMAC of `app/core/security.py` is abstracted as an arbitrary
  function from payloads to signature values; every token theorem is
  universally quantified over it.
-/

/-- `OrderStatus` enum from `app/models/order.py`. -/
inductive OrderStatus
  | pending
  | confirmed
  | processing
  | shipped
  | delivered
  | cancelled
deriving DecidableEq, Repr

/-- `PaymentStatus` enum from `app/models/order.py`. -/
inductive PaymentStatus
  | pending
  | paid
  | failed
  | refunded
deriving DecidableEq, Repr

/-- `PaymentMethod` enum from `app/models/order.py` (`card`, `cod`, `bank`). -/
inductive PaymentMethod
  | card
  | cod
  | bank
deriving DecidableEq, Repr

/-- `OrderItem` pydantic model: one snapshotted line item. -/
structure OrderItem where
  product_id : String
  name : String
  price : Int
  quantity : Int
  size : String
  image : String
deriving DecidableEq, Repr

/-- `ShippingAddress` pydantic model. -/
structure ShippingAddress where
  first_name : String
  last_name : String
  address : String
  apartment : Option String := none
  city : String
  postal_code : Option String := none
  country : String := "Pakistan"
  phone : String
deriving DecidableEq, Repr

/-- `OrderCreate` pydantic model: the request body of `POST /orders`.
The pydantic model puts no lower bound on the length of `items`;
an empty list passes validation. -/
structure OrderCreate where
  items : List OrderItem
  shipping_address : ShippingAddress
  email : String
  payment_method : PaymentMethod
  shipping_method : String := "standard"
  notes : Option String := none
deriving DecidableEq, Repr

/-- `OrderUpdate` pydantic model: the admin patch body of `PUT /orders/{id}`. -/
structure OrderUpdate where
  status : Option OrderStatus := none
  payment_status : Option PaymentStatus := none
  tracking_number : Option String := none
  notes : Option String := none
deriving DecidableEq, Repr

/-- The order document as stored in the `orders` collection
(built in `create_order`, `app/api/orders.py`). -/
structure OrderDoc where
  order_number : String
  user_id : Option String
  items : List OrderItem
  shipping_address : ShippingAddress
  email : String
  subtotal : Int
  shipping_cost : Int
  total : Int
  payment_method : PaymentMethod
  payment_status : PaymentStatus
  shipping_method : String
  status : OrderStatus
  tracking_number : Option String := none
  notes : Option String := none
  created_at : Nat
  updated_at : Nat
deriving DecidableEq, Repr

/-- The slice of a `users` collection document that the order endpoints
read: `str(user["_id"])`, `user.get("is_admin")`, `user.get("is_active")`. -/
structure UserDoc where
  id : String
  is_active : Bool := true
  is_admin : Bool := false
deriving DecidableEq, Repr

/-- An order document together with the hex string of its Mongo `_id`. -/
structure StoredOrder where
  id : String
  doc : OrderDoc
deriving DecidableEq, Repr

/-- Decidable equality of `Except` results, for evaluating endpoint
outcomes on concrete inputs. -/
instance {e a : Type} [DecidableEq e] [DecidableEq a] :
    DecidableEq (Except e a)
  | Except.error v, Except.error w =>
    match decEq v w with
    | isTrue h => isTrue (h ▸ rfl)
    | isFalse h => isFalse (fun hc => h (Except.error.inj hc))
  | Except.error _, Except.ok _ => isFalse (fun hc => Except.noConfusion hc)
  | Except.ok _, Except.error _ => isFalse (fun hc => Except.noConfusion hc)
  | Except.ok v, Except.ok w =>
    match decEq v w with
    | isTrue h => isTrue (h ▸ rfl)
    | isFalse h => isFalse (fun hc => h (Except.ok.inj hc))

/-- Hexadecimal digit test, as accepted by `bson.ObjectId` for each
character of a 24-character id string. -/
def isHexChar (c : Char) : Bool :=
  c.isDigit || (97 ≤ c.val && c.val ≤ 102) || (65 ≤ c.val && c.val ≤ 70)

/-- Structural validity of a Mongo object id string: `bson.ObjectId(s)`
succeeds on a string exactly when it is 24 hexadecimal characters.
`try: ObjectId(order_id) except: ...` in the handlers branches on this. -/
def isValidObjectId (s : String) : Bool :=
  s.length == 24 && s.toList.all isHexChar

/-- `create_order` (`app/api/orders.py` lines 44-95), the pure part:
totals computation, document construction, and the card-payment override.
The random order number and the current time are parameters; the store
insert assigns the `_id` and is outside this function. -/
def create_order (order_data : OrderCreate) (current_user : Option UserDoc)
    (order_number : String) (now : Nat) : OrderDoc :=
  let subtotal : Int :=
    (order_data.items.map (fun item => item.price * item.quantity)).sum
  let shipping_cost : Int :=
    if order_data.shipping_method = "express" then 3000
    else if subtotal ≥ 50000 then 0
    else 1500
  let total : Int := subtotal + shipping_cost
  let order_doc : OrderDoc :=
    { order_number := order_number
      user_id := current_user.map (fun u => u.id)
      items := order_data.items
      shipping_address := order_data.shipping_address
      email := order_data.email
      subtotal := subtotal
      shipping_cost := shipping_cost
      total := total
      payment_method := order_data.payment_method
      payment_status :=
        if order_data.payment_method ≠ PaymentMethod.cod then PaymentStatus.pending
        else PaymentStatus.pending
      shipping_method := order_data.shipping_method
      status := OrderStatus.pending
      tracking_number := none
      notes := order_data.notes
      created_at := now
      updated_at := now }
  if order_data.payment_method = PaymentMethod.card then
    { order_doc with
      payment_status := PaymentStatus.paid
      status := OrderStatus.confirmed }
  else order_doc

/-- The `HTTPException` outcomes raised by the order endpoints of
`app/api/orders.py`. -/
inductive OrderError
  | notFound
  | forbidden
  | cannotCancel
  | invalidOrderId
deriving DecidableEq, Repr

/-- HTTP status code of each order-endpoint error, as in the
`HTTPException(status_code=...)` calls of `orders.py`. -/
def OrderError.statusCode : OrderError → Nat
  | OrderError.notFound => 404
  | OrderError.forbidden => 403
  | OrderError.cannotCancel => 400
  | OrderError.invalidOrderId => 400

/-- `detail` message of each order-endpoint error (cancel/get variants). -/
def OrderError.detail : OrderError → String
  | OrderError.notFound => "Order not found"
  | OrderError.forbidden => "Not authorized"
  | OrderError.cannotCancel => "Cannot cancel order in current status"
  | OrderError.invalidOrderId => "Invalid order ID"

/-- `db.orders.find_one` with an `_id` filter: lookup of a stored order
by its object id string. -/
def findById (db : List StoredOrder) (oid : String) : Option StoredOrder :=
  db.find? (fun o => o.id == oid)

/-- The lookup of `get_order` (`orders.py` lines 133-138): find by `_id`
when the path parameter parses as an `ObjectId`, otherwise fall back to a
lookup by `order_number`. -/
def findOrder (db : List StoredOrder) (order_id : String) : Option StoredOrder :=
  if isValidObjectId order_id then findById db order_id
  else db.find? (fun o => o.doc.order_number == order_id)

/-- Python truthiness of `order.get("user_id")`: falsy when the field is
absent/None or the empty string. -/
def truthyStr : Option String → Bool
  | none => false
  | some s => !(s == "")

/-- `get_order` (`orders.py` lines 125-149): lookup by id or order
number, then the ownership check
`if order.get("user_id") and order["user_id"] != user_id and not current_user.get("is_admin")`,
performed only when a caller is present. -/
def get_order (db : List StoredOrder) (order_id : String)
    (current_user : Option UserDoc) : Except OrderError OrderDoc :=
  match findOrder db order_id with
  | none => Except.error OrderError.notFound
  | some o =>
    match current_user with
    | none => Except.ok o.doc
    | some u =>
      if truthyStr o.doc.user_id && !(o.doc.user_id == some u.id) && !u.is_admin then
        Except.error OrderError.forbidden
      else Except.ok o.doc

/-- Lower-casing of a single character, as Python `str.lower()` acts on
the ASCII range (the range exercised by the email values in this
development). -/
def lowerChar (c : Char) : Char :=
  if 65 ≤ c.val ∧ c.val ≤ 90 then Char.ofNat (c.toNat + 32) else c

/-- Python `str.lower()` restricted to ASCII strings: lower-case every
character. -/
def lowerString (s : String) : String :=
  String.mk (s.toList.map lowerChar)

/-- `track_order` (`orders.py` lines 152-165): `find_one` with an
order-number and email filter. Only the supplied email is lowercased
(`email.lower()`); the stored email is compared verbatim. -/
def track_order (db : List StoredOrder) (order_number : String)
    (email : String) : Except OrderError OrderDoc :=
  match db.find? (fun o =>
      o.doc.order_number == order_number && o.doc.email == lowerString email) with
  | none => Except.error OrderError.notFound
  | some o => Except.ok o.doc

/-- `cancel_order` (`orders.py` lines 229-270): object-id parse (400 on
failure), lookup (404), ownership check
`order.get("user_id") != user_id and not current_user.get("is_admin")` (403),
status guard (400 unless pending or confirmed), then the update setting
`status=cancelled` and `updated_at=now`. The source re-reads the document
after `update_one`; with a single store that read returns the updated
document, which this function returns directly. -/
def cancel_order (db : List StoredOrder) (order_id : String)
    (current_user : UserDoc) (now : Nat) : Except OrderError OrderDoc :=
  if ¬ isValidObjectId order_id then Except.error OrderError.invalidOrderId
  else
    match findById db order_id with
    | none => Except.error OrderError.notFound
    | some o =>
      if o.doc.user_id ≠ some current_user.id ∧ ¬ current_user.is_admin then
        Except.error OrderError.forbidden
      else if ¬ (o.doc.status = OrderStatus.pending ∨ o.doc.status = OrderStatus.confirmed) then
        Except.error OrderError.cannotCancel
      else
        Except.ok { o.doc with status := OrderStatus.cancelled, updated_at := now }

/-- `update_order` (`orders.py` lines 200-226, admin-only): object-id
parse (400 on failure), `$set` of the non-None patch fields plus
`updated_at`, 404 when no document matched, then re-read. -/
def update_order (db : List StoredOrder) (order_id : String)
    (order_data : OrderUpdate) (now : Nat) : Except OrderError OrderDoc :=
  if ¬ isValidObjectId order_id then Except.error OrderError.invalidOrderId
  else
    match findById db order_id with
    | none => Except.error OrderError.notFound
    | some o =>
      Except.ok { o.doc with
        status := order_data.status.getD o.doc.status
        payment_status := order_data.payment_status.getD o.doc.payment_status
        tracking_number :=
          match order_data.tracking_number with
          | some v => some v
          | none => o.doc.tracking_number
        notes :=
          match order_data.notes with
          | some v => some v
          | none => o.doc.notes
        updated_at := now }

/-- Decoded JWT payload: the claims dictionary passed to `jwt.encode`,
as built by `create_access_token` (a `sub` claim and an `exp` claim). -/
structure JwtPayload where
  sub : Option String
  exp : Nat
deriving DecidableEq, Repr

/-- A signed token: payload plus the HMAC signature value computed over
it. A token whose signature part does not equal the MAC of its payload
part models a tampered or foreign token. -/
structure Jwt where
  payload : JwtPayload
  sig : Nat
deriving DecidableEq, Repr

/-- `settings.ACCESS_TOKEN_EXPIRE_MINUTES` (`app/core/config.py`). -/
def ACCESS_TOKEN_EXPIRE_MINUTES : Nat := 60

/-- `create_access_token` (`app/core/security.py` lines 24-33) as called
by the login endpoint, with `data` holding the `sub` claim: sets the
expiry to now plus the given delta (seconds), defaulting to
`ACCESS_TOKEN_EXPIRE_MINUTES`, and signs the payload. The HMAC with the
server secret is abstracted as the function `mac`. -/
def create_access_token (mac : JwtPayload → Nat) (sub : String)
    (expires_delta : Option Nat) (now : Nat) : Jwt :=
  let expire : Nat :=
    match expires_delta with
    | some d => now + d
    | none => now + ACCESS_TOKEN_EXPIRE_MINUTES * 60
  let payload : JwtPayload := { sub := some sub, exp := expire }
  { payload := payload, sig := mac payload }

/-- The single failure value of token verification: every decode or
payload problem in `get_current_user` raises the same
`credentials_exception` (401 "Could not validate credentials"). -/
inductive TokenError
  | invalid
deriving DecidableEq, Repr

/-- `jwt.decode` (as used in `get_current_user`, `security.py` lines
47-53): fails when the signature does not match the payload MAC, or when
the `exp` claim lies strictly in the past (`python-jose` expiry check
with zero leeway). -/
def jwt_decode (mac : JwtPayload → Nat) (token : Jwt) (now : Nat) :
    Except TokenError JwtPayload :=
  if token.sig ≠ mac token.payload then Except.error TokenError.invalid
  else if token.payload.exp < now then Except.error TokenError.invalid
  else Except.ok token.payload

/-- The token-verification portion of `get_current_user`
(`security.py` lines 36-53): decode, then extract the `sub` claim,
raising the credentials exception when it is absent. (The subsequent
user-collection lookup belongs to caller resolution, not to token
verification, and is not part of this function.) -/
def verify_token (mac : JwtPayload → Nat) (token : Jwt) (now : Nat) :
    Except TokenError String :=
  match jwt_decode mac token now with
  | Except.error _ => Except.error TokenError.invalid
  | Except.ok payload =>
    match payload.sub with
    | none => Except.error TokenError.invalid
    | some user_id => Except.ok user_id

/-- A constant MAC function, used only to instantiate witnesses. -/
def constMac : JwtPayload → Nat := fun _ => 7

/-- Sample line item used to instantiate hypothesised theorems. -/
def sampleItem : OrderItem :=
  { product_id := "p1", name := "Ajrak Scarf", price := 4500, quantity := 2,
    size := "M", image := "scarf.jpg" }

/-- Sample shipping address used to instantiate hypothesised theorems. -/
def sampleAddress : ShippingAddress :=
  { first_name := "Ana", last_name := "Khan", address := "Street 1",
    city := "Karachi", phone := "0300-0000000" }

/-- Sample creation request used to instantiate hypothesised theorems. -/
def sampleReq : OrderCreate :=
  { items := [sampleItem], shipping_address := sampleAddress,
    email := "ana@example.com", payment_method := PaymentMethod.card,
    shipping_method := "express" }

/-- A second registered user, not the owner of any sample order. -/
def strangerUser : UserDoc := { id := "dddddddddddddddddddddddd" }

/-- The sample order owner. -/
def sampleUser : UserDoc := { id := "cccccccccccccccccccccccc" }

/-- An admin user. -/
def adminUser : UserDoc := { id := "bbbbbbbbbbbbbbbbbbbbbbbb", is_admin := true }

/-- Object id of the sample stored order. -/
def sampleOid : String := "aaaaaaaaaaaaaaaaaaaaaaaa"

/-- Sample stored order: card payment by `sampleUser`, hence confirmed. -/
def sampleStored : StoredOrder :=
  { id := sampleOid, doc := create_order sampleReq (some sampleUser) "AJR-1" 5 }

/-- Sample cod request (order starts pending/pending). -/
def codReq : OrderCreate :=
  { items := [sampleItem], shipping_address := sampleAddress,
    email := "ana@example.com", payment_method := PaymentMethod.cod }

/-- Sample stored pending order owned by `sampleUser`. -/
def pendingStored : StoredOrder :=
  { id := "eeeeeeeeeeeeeeeeeeeeeeee",
    doc := create_order codReq (some sampleUser) "AJR-2" 5 }

/-- Sample stored guest order (no owning user). -/
def guestStored : StoredOrder :=
  { id := "abcdefabcdefabcdefabcdef",
    doc := create_order codReq none "AJR-3" 5 }

/-- Creation request with an empty items list; the pydantic `OrderCreate`
model accepts it. -/
def emptyItemsReq : OrderCreate :=
  { items := [], shipping_address := sampleAddress,
    email := "guest@example.com", payment_method := PaymentMethod.cod }

/-- Creation request carrying a mixed-case contact email, as a guest
checkout may submit. -/
def mixedCaseReq : OrderCreate :=
  { items := [sampleItem], shipping_address := sampleAddress,
    email := "John@Example.com", payment_method := PaymentMethod.cod }

/-- Stored order created from `mixedCaseReq`: `create_order` stores the
email verbatim, without lowercasing. -/
def mixedCaseStored : StoredOrder :=
  { id := "650000000000000000000001",
    doc := create_order mixedCaseReq none "AJR-250101-ABC123" 0 }

/-- The subtotal stored by `create_order` is the sum of price times
quantity over the line items (line 53 of `orders.py`). -/
theorem create_order_subtotal (d : OrderCreate) (u : Option UserDoc)
    (n : String) (t : Nat) :
    (create_order d u n t).subtotal
        = (d.items.map (fun item => item.price * item.quantity)).sum := by
  unfold create_order
  dsimp only
  split <;> rfl

/-- The shipping cost stored by `create_order` is the express/threshold
conditional of lines 56-61 of `orders.py`. -/
theorem create_order_shipping_cost (d : OrderCreate) (u : Option UserDoc)
    (n : String) (t : Nat) :
    (create_order d u n t).shipping_cost
        = (if d.shipping_method = "express" then 3000
           else if (d.items.map (fun item => item.price * item.quantity)).sum ≥ 50000 then 0
           else (1500 : Int)) := by
  unfold create_order
  dsimp only
  split <;> rfl

/-- The total stored by `create_order` is subtotal plus shipping cost
(line 63 of `orders.py`). -/
theorem create_order_total (d : OrderCreate) (u : Option UserDoc)
    (n : String) (t : Nat) :
    (create_order d u n t).total
        = (create_order d u n t).subtotal + (create_order d u n t).shipping_cost := by
  unfold create_order
  dsimp only
  split <;> rfl

/-- Claim C1: checkout totals in `create_order`: subtotal is the sum of
price times quantity over the line items; shipping is 3000 for express
(checked before the free-shipping threshold), else 0 from subtotal 50000
upward, else 1500; total is subtotal plus shipping; shipping is always
one of 0, 1500, 3000. -/
theorem C1_checkout_totals (d : OrderCreate) (u : Option UserDoc)
    (n : String) (t : Nat) :
    (create_order d u n t).subtotal
        = (d.items.map (fun item => item.price * item.quantity)).sum ∧
    (d.shipping_method = "express" → (create_order d u n t).shipping_cost = 3000) ∧
    (d.shipping_method ≠ "express" → 50000 ≤ (create_order d u n t).subtotal →
      (create_order d u n t).shipping_cost = 0) ∧
    (d.shipping_method ≠ "express" → (create_order d u n t).subtotal < 50000 →
      (create_order d u n t).shipping_cost = 1500) ∧
    (create_order d u n t).total
        = (create_order d u n t).subtotal + (create_order d u n t).shipping_cost ∧
    ((create_order d u n t).shipping_cost = 0 ∨
      (create_order d u n t).shipping_cost = 1500 ∨
      (create_order d u n t).shipping_cost = 3000) := by
  refine ⟨create_order_subtotal d u n t, ?_, ?_, ?_, create_order_total d u n t, ?_⟩
  · intro hm
    rw [create_order_shipping_cost, if_pos hm]
  · intro hm hs
    rw [create_order_subtotal] at hs
    rw [create_order_shipping_cost, if_neg hm, if_pos hs]
  · intro hm hs
    rw [create_order_subtotal] at hs
    rw [create_order_shipping_cost, if_neg hm, if_neg (by omega)]
  · rw [create_order_shipping_cost]
    split_ifs <;> norm_num

/-- Witness for C1 at a concrete express-shipping request. -/
theorem C1_checkout_totals_witness :
    sampleReq.shipping_method = "express" ∧
    (create_order sampleReq none "AJR-1" 0).shipping_cost = 3000 := by
  refine ⟨by decide, ?_⟩
  exact (C1_checkout_totals sampleReq none "AJR-1" 0).2.1 (by decide)

/-- Claim C2: payment method card yields a paid, confirmed order at
creation (mocked gateway, no failure path); cod and bank leave the order
pending/pending. -/
theorem C2_payment_override (d : OrderCreate) (u : Option UserDoc)
    (n : String) (t : Nat) :
    (d.payment_method = PaymentMethod.card →
      (create_order d u n t).payment_status = PaymentStatus.paid ∧
      (create_order d u n t).status = OrderStatus.confirmed) ∧
    (d.payment_method = PaymentMethod.cod ∨ d.payment_method = PaymentMethod.bank →
      (create_order d u n t).payment_status = PaymentStatus.pending ∧
      (create_order d u n t).status = OrderStatus.pending) := by
  constructor
  · intro hm
    unfold create_order
    dsimp only
    rw [if_pos hm]
    exact ⟨rfl, rfl⟩
  · intro hm
    have hne : d.payment_method ≠ PaymentMethod.card := by
      rcases hm with h | h <;> rw [h] <;> intro hc <;> cases hc
    unfold create_order
    dsimp only
    rw [if_neg hne]
    exact ⟨ite_self _, rfl⟩

/-- Witness for C2 at a concrete card-payment request. -/
theorem C2_payment_override_witness :
    sampleReq.payment_method = PaymentMethod.card ∧
    (create_order sampleReq none "AJR-1" 0).payment_status = PaymentStatus.paid ∧
    (create_order sampleReq none "AJR-1" 0).status = OrderStatus.confirmed := by
  refine ⟨by decide, ?_⟩
  exact (C2_payment_override sampleReq none "AJR-1" 0).1 (by decide)

/-- Claim C5, code evaluated at the failing input: `create_order` performs
no emptiness validation on `items` — on an empty list it succeeds and
produces an order with subtotal 0, standard shipping 1500, total 1500,
contradicting the requirement that empty-items checkout fails with a
caller error. -/
theorem C5_empty_items_accepted :
    (create_order emptyItemsReq none "AJR-4" 0).items = [] ∧
    (create_order emptyItemsReq none "AJR-4" 0).subtotal = 0 ∧
    (create_order emptyItemsReq none "AJR-4" 0).shipping_cost = 1500 ∧
    (create_order emptyItemsReq none "AJR-4" 0).total = 1500 ∧
    (create_order emptyItemsReq none "AJR-4" 0).status = OrderStatus.pending := by
  decide

/-- Claim C6, code evaluated at the failing input: an order created with
the mixed-case email `John@Example.com` is stored verbatim, and
`track_order` lowercases only the supplied email, so tracking fails with
NotFound for the exact creation email and for every case variant of it —
while an order stored with an all-lowercase email is trackable under any
case variation. -/
theorem C6_tracking_case_folding_bug :
    mixedCaseStored.doc.email = "John@Example.com" ∧
    mixedCaseStored.doc.order_number = "AJR-250101-ABC123" ∧
    track_order [mixedCaseStored] "AJR-250101-ABC123" "John@Example.com"
      = Except.error OrderError.notFound ∧
    track_order [mixedCaseStored] "AJR-250101-ABC123" "JOHN@EXAMPLE.COM"
      = Except.error OrderError.notFound ∧
    track_order [mixedCaseStored] "AJR-250101-ABC123" "john@example.com"
      = Except.error OrderError.notFound ∧
    pendingStored.doc.email = "ana@example.com" ∧
    track_order [pendingStored] "AJR-2" "ANA@Example.COM"
      = Except.ok pendingStored.doc := by
  decide

/-- On a found order, an authorized caller (owner or admin) cancelling a
pending or confirmed order gets back the document with only `status` and
`updated_at` changed (`orders.py` lines 259-270). -/
theorem cancel_order_success (db : List StoredOrder) (oid : String)
    (u : UserDoc) (now : Nat) (o : StoredOrder)
    (hv : isValidObjectId oid = true)
    (hf : findById db oid = some o)
    (hauth : o.doc.user_id = some u.id ∨ u.is_admin = true)
    (hst : o.doc.status = OrderStatus.pending ∨ o.doc.status = OrderStatus.confirmed) :
    cancel_order db oid u now
      = Except.ok { o.doc with status := OrderStatus.cancelled, updated_at := now } := by
  have himp : ¬ o.doc.user_id = some u.id → u.is_admin = true := by
    intro hne
    rcases hauth with ha | ha
    · exact absurd ha hne
    · exact ha
  rcases hst with h | h <;> simp [cancel_order, hv, hf, h] <;> exact himp

/-- Claim C3: guard sequence of `cancel_order` for a structurally valid
order id: NotFound when the lookup misses; Forbidden when the caller is
neither the owner nor an admin; a 400 invalid-transition error unless the
status is pending or confirmed (in particular from shipped, delivered and
cancelled); success from pending or confirmed for the owner or an admin.
(A structurally malformed id string is rejected earlier with a 400
invalid-id error; that path is the subject of claim C8.) -/
theorem C3_cancel_order_guards (db : List StoredOrder) (oid : String)
    (u : UserDoc) (now : Nat) (hv : isValidObjectId oid = true) :
    (findById db oid = none →
      cancel_order db oid u now = Except.error OrderError.notFound) ∧
    (∀ o, findById db oid = some o →
      o.doc.user_id ≠ some u.id → u.is_admin = false →
      cancel_order db oid u now = Except.error OrderError.forbidden) ∧
    (∀ o, findById db oid = some o →
      (o.doc.user_id = some u.id ∨ u.is_admin = true) →
      o.doc.status ≠ OrderStatus.pending → o.doc.status ≠ OrderStatus.confirmed →
      cancel_order db oid u now = Except.error OrderError.cannotCancel) ∧
    (∀ o, findById db oid = some o →
      (o.doc.user_id = some u.id ∨ u.is_admin = true) →
      (o.doc.status = OrderStatus.pending ∨ o.doc.status = OrderStatus.confirmed) →
      cancel_order db oid u now
        = Except.ok { o.doc with status := OrderStatus.cancelled, updated_at := now }) := by
  refine ⟨?_, ?_, ?_, ?_⟩
  · intro hf
    simp [cancel_order, hv, hf]
  · intro o hf h1 h2
    simp [cancel_order, hv, hf, h1, h2]
  · intro o hf hauth h1 h2
    have himp : ¬ o.doc.user_id = some u.id → u.is_admin = true := by
      intro hne
      rcases hauth with ha | ha
      · exact absurd ha hne
      · exact ha
    simp [cancel_order, hv, hf, h1, h2]
    exact himp
  · intro o hf hauth hst
    exact cancel_order_success db oid u now o hv hf hauth hst

/-- Witness for C3: the owner cancels their confirmed order. -/
theorem C3_cancel_order_guards_witness :
    isValidObjectId sampleOid = true ∧
    findById [sampleStored] sampleOid = some sampleStored ∧
    sampleStored.doc.status = OrderStatus.confirmed ∧
    cancel_order [sampleStored] sampleOid sampleUser 9
      = Except.ok { sampleStored.doc with
          status := OrderStatus.cancelled, updated_at := 9 } := by
  refine ⟨by decide, by decide, by decide, ?_⟩
  exact (C3_cancel_order_guards [sampleStored] sampleOid sampleUser 9 (by decide)).2.2.2
    sampleStored (by decide) (by decide) (by decide)

/-- Claim C4: ownership rule of `get_order`: with a caller present and a
non-null (and, per Python truthiness, non-empty) owner on the order, the
fetch succeeds precisely for that owner or an admin and otherwise fails
with Forbidden; with a null owner (guest order) any caller receives the
order; with no caller present the Forbidden branch is unreachable. -/
theorem C4_get_order_ownership (db : List StoredOrder) (oid : String) :
    (∀ u o owner, findOrder db oid = some o →
      o.doc.user_id = some owner → owner ≠ "" →
      ((get_order db oid (some u) = Except.ok o.doc ↔ (u.id = owner ∨ u.is_admin = true)) ∧
       (get_order db oid (some u) = Except.error OrderError.forbidden ↔
          ¬ (u.id = owner ∨ u.is_admin = true)))) ∧
    (∀ u o, findOrder db oid = some o → o.doc.user_id = none →
      get_order db oid (some u) = Except.ok o.doc) ∧
    (get_order db oid none ≠ Except.error OrderError.forbidden) := by
  refine ⟨?_, ?_, ?_⟩
  · intro u o owner hf hown hne
    by_cases hcond : u.id = owner ∨ u.is_admin = true
    · have hb : (truthyStr o.doc.user_id && !(o.doc.user_id == some u.id) && !u.is_admin)
          = false := by
        rcases hcond with h | h
        · simp [hown, h]
        · simp [h]
      simp [get_order, hf, hb, hcond]
    · push_neg at hcond
      have hb : (truthyStr o.doc.user_id && !(o.doc.user_id == some u.id) && !u.is_admin)
          = true := by
        simp [hown, truthyStr, hne, Ne.symm hcond.1, hcond.2]
      have hcond2 : ¬ (u.id = owner ∨ u.is_admin = true) := by
        intro hc
        rcases hc with h | h
        · exact hcond.1 h
        · exact hcond.2 h
      simp [get_order, hf, hb, hcond2]
  · intro u o hf hown
    simp [get_order, hf, truthyStr, hown]
  · cases hf : findOrder db oid with
    | none => simp [get_order, hf]
    | some o => simp [get_order, hf]

/-- Witness for C4: a non-owner, non-admin caller fetching an owned order
is refused with Forbidden. -/
theorem C4_get_order_ownership_witness :
    findOrder [sampleStored] sampleOid = some sampleStored ∧
    sampleStored.doc.user_id = some sampleUser.id ∧
    get_order [sampleStored] sampleOid (some strangerUser)
      = Except.error OrderError.forbidden := by
  refine ⟨by decide, by decide, ?_⟩
  exact (((C4_get_order_ownership [sampleStored] sampleOid).1 strangerUser sampleStored
    sampleUser.id (by decide) (by decide) (by decide)).2).mpr (by decide)

/-- Claim C8 counterexample: a malformed order identifier is rejected by
`cancel_order` and `update_order` with the 400 "Invalid order ID" error,
which is not the 404 NotFound error the claim asserts. -/
theorem C8_counterexample :
    cancel_order [] "xyz" sampleUser 0 = Except.error OrderError.invalidOrderId ∧
    update_order [] "xyz" {} 0 = Except.error OrderError.invalidOrderId ∧
    OrderError.invalidOrderId ≠ OrderError.notFound ∧
    OrderError.statusCode OrderError.invalidOrderId = 400 ∧
    OrderError.statusCode OrderError.notFound = 404 ∧
    OrderError.detail OrderError.invalidOrderId = "Invalid order ID" ∧
    OrderError.detail OrderError.notFound = "Order not found" := by
  decide

/-- Claim C8 as amended: for every structurally invalid order id string,
`cancel_order` and `update_order` fail with the 400 "Invalid order ID"
error — a distinct error from the 404 NotFound returned when a
well-formed id matches no order. -/
theorem C8_amended_malformed_id (db : List StoredOrder) (oid : String)
    (u : UserDoc) (patch : OrderUpdate) (now : Nat)
    (h : isValidObjectId oid = false) :
    cancel_order db oid u now = Except.error OrderError.invalidOrderId ∧
    update_order db oid patch now = Except.error OrderError.invalidOrderId ∧
    OrderError.statusCode OrderError.invalidOrderId = 400 := by
  refine ⟨?_, ?_, rfl⟩ <;> simp [cancel_order, update_order, h]

/-- Witness for the amended C8 at the malformed id string `xyz`. -/
theorem C8_amended_malformed_id_witness :
    isValidObjectId "xyz" = false ∧
    cancel_order [] "xyz" adminUser 0 = Except.error OrderError.invalidOrderId := by
  refine ⟨by decide, ?_⟩
  exact (C8_amended_malformed_id [] "xyz" adminUser {} 0 (by decide)).1

/-- Claim C9: frame condition of a successful cancellation: the resulting
document has status cancelled and `updated_at` set to the cancellation
instant, and every other field is unchanged. -/
theorem C9_cancel_frame (db : List StoredOrder) (oid : String)
    (u : UserDoc) (now : Nat) (o : StoredOrder)
    (hv : isValidObjectId oid = true)
    (hf : findById db oid = some o)
    (hauth : o.doc.user_id = some u.id ∨ u.is_admin = true)
    (hst : o.doc.status = OrderStatus.pending ∨ o.doc.status = OrderStatus.confirmed) :
    ∃ d, cancel_order db oid u now = Except.ok d ∧
      d.status = OrderStatus.cancelled ∧
      d.updated_at = now ∧
      d.items = o.doc.items ∧
      d.shipping_address = o.doc.shipping_address ∧
      d.email = o.doc.email ∧
      d.subtotal = o.doc.subtotal ∧
      d.shipping_cost = o.doc.shipping_cost ∧
      d.total = o.doc.total ∧
      d.payment_method = o.doc.payment_method ∧
      d.payment_status = o.doc.payment_status ∧
      d.shipping_method = o.doc.shipping_method ∧
      d.order_number = o.doc.order_number ∧
      d.user_id = o.doc.user_id ∧
      d.tracking_number = o.doc.tracking_number ∧
      d.notes = o.doc.notes ∧
      d.created_at = o.doc.created_at := by
  exact ⟨{ o.doc with status := OrderStatus.cancelled, updated_at := now },
    cancel_order_success db oid u now o hv hf hauth hst,
    rfl, rfl, rfl, rfl, rfl, rfl, rfl, rfl, rfl, rfl, rfl, rfl, rfl, rfl, rfl, rfl⟩

/-- Witness for C9: the owner cancels their pending order at instant 9. -/
theorem C9_cancel_frame_witness :
    isValidObjectId "eeeeeeeeeeeeeeeeeeeeeeee" = true ∧
    (∃ d, cancel_order [pendingStored] "eeeeeeeeeeeeeeeeeeeeeeee" sampleUser 9
        = Except.ok d ∧
      d.status = OrderStatus.cancelled ∧ d.updated_at = 9 ∧
      d.items = pendingStored.doc.items ∧ d.email = pendingStored.doc.email) := by
  refine ⟨by decide, ?_⟩
  obtain ⟨d, h1, h2, h3, h4, h5, h6, hrest⟩ :=
    C9_cancel_frame [pendingStored] "eeeeeeeeeeeeeeeeeeeeeeee" sampleUser 9 pendingStored
      (by decide) (by decide) (by decide) (by decide)
  exact ⟨d, h1, h2, h3, h4, h6⟩

/-- Claim C10: a guest order (null `user_id`) can never be cancelled by a
non-admin authenticated caller: the ownership check
`order.get("user_id") != user_id` always holds because `None` differs
from every caller id string, so the endpoint fails with Forbidden. -/
theorem C10_guest_cancel_forbidden (db : List StoredOrder) (oid : String)
    (u : UserDoc) (now : Nat) (o : StoredOrder)
    (hv : isValidObjectId oid = true)
    (hf : findById db oid = some o)
    (hguest : o.doc.user_id = none)
    (hadm : u.is_admin = false) :
    cancel_order db oid u now = Except.error OrderError.forbidden := by
  simp [cancel_order, hv, hf, hguest, hadm]

/-- Witness for C10: a non-admin user attempts to cancel a guest order. -/
theorem C10_guest_cancel_forbidden_witness :
    guestStored.doc.user_id = none ∧
    strangerUser.is_admin = false ∧
    cancel_order [guestStored] "abcdefabcdefabcdefabcdef" strangerUser 9
      = Except.error OrderError.forbidden := by
  refine ⟨by decide, by decide, ?_⟩
  exact C10_guest_cancel_forbidden [guestStored] "abcdefabcdefabcdefabcdef" strangerUser 9
    guestStored (by decide) (by decide) (by decide) (by decide)

/-- Claim C7: token round trip: a token issued for a subject with a
positive ttl verifies to exactly that subject immediately; the same token
fails with Invalid at any instant after the ttl has elapsed; a token whose
signature does not verify, or whose payload lacks the `sub` claim, fails
with Invalid at every instant. Stated for every HMAC function `mac`. -/
theorem C7_token_roundtrip (mac : JwtPayload → Nat) (sub : String)
    (ttl now : Nat) (httl : 0 < ttl) :
    verify_token mac (create_access_token mac sub (some ttl) now) now
      = Except.ok sub ∧
    (∀ t, now + ttl < t →
      verify_token mac (create_access_token mac sub (some ttl) now) t
        = Except.error TokenError.invalid) ∧
    (∀ tok t, tok.sig ≠ mac tok.payload →
      verify_token mac tok t = Except.error TokenError.invalid) ∧
    (∀ tok t, tok.payload.sub = none →
      verify_token mac tok t = Except.error TokenError.invalid) := by
  refine ⟨?_, ?_, ?_, ?_⟩
  · have hexp : ¬ (now + ttl < now) := by omega
    simp [verify_token, jwt_decode, create_access_token, hexp]
  · intro t ht
    simp [verify_token, jwt_decode, create_access_token, ht]
  · intro tok t hsig
    simp [verify_token, jwt_decode, hsig]
  · intro tok t hsub
    by_cases hsig : tok.sig = mac tok.payload
    · by_cases hexp : tok.payload.exp < t
      · simp [verify_token, jwt_decode, hsig, hexp]
      · simp [verify_token, jwt_decode, hsig, hexp, hsub]
    · simp [verify_token, jwt_decode, hsig]

/-- Witness for C7: round trip at a concrete subject, ttl and instant. -/
theorem C7_token_roundtrip_witness :
    0 < 60 ∧
    verify_token constMac (create_access_token constMac "user-1" (some 60) 100) 100
      = Except.ok "user-1" := by
  refine ⟨by decide, ?_⟩
  exact (C7_token_roundtrip constMac "user-1" 60 100 (by decide)).1
